import Mathlib

/-!
Shallow embedding of the MeloTTS-API request-handling layer.

The embedding follows the Python sources:
* `config.py`: the `Settings` object (environment defaults).
* `models.py`: the pydantic `TTSRequest` model with its field constraints
  (`min_length=1`, `max_length=1000`, `ge=0.5`, `le=2.0`) and the two
  class validators `validate_text` and `validate_speed`.
* `main.py`: the lifespan startup (model load, readiness flag), the
  `/health` and `/speakers` handlers, the synthesis helpers
  `generate_wav_audio` / `generate_base64_mp3`, and the `/tts` and
  `/synthesize` endpoint handlers.

External collaborators (the MeloTTS model call `tts_to_file` and the
pydub WAV-to-MP3 transcoding) are parameters of the embedding: they are
functions that either return bytes or raise a Python-style exception.
Audio byte buffers are modelled as `List Nat`, speeds as rationals
(0.5 is `mkRat 1 2`).  The worker-pool dispatch and the model invocation
are recorded as events so that ordering claims can be stated.
-/

namespace MeloTTS

/-- Settings from `config.py` (field per environment variable). -/
structure Settings where
  HOST : String
  PORT : Nat
  DEVICE : String
  LANGUAGE : String
  MAX_WORKERS : Nat
  MAX_TEXT_LENGTH : Nat
  DEFAULT_SPEAKER : String
  DEFAULT_SPEED : Rat
  CORS_ORIGINS : List String
  LOG_LEVEL : String
  MODEL_CACHE_DIR : String
deriving DecidableEq

/-- The settings obtained when no environment variable is set
(the defaults hardcoded in `config.py`). -/
def defaultSettings : Settings :=
  { HOST := "0.0.0.0"
    PORT := 8080
    DEVICE := "auto"
    LANGUAGE := "EN"
    MAX_WORKERS := 4
    MAX_TEXT_LENGTH := 1000
    DEFAULT_SPEAKER := "EN-US"
    DEFAULT_SPEED := 1
    CORS_ORIGINS := ["*"]
    LOG_LEVEL := "INFO"
    MODEL_CACHE_DIR := "./models" }

/-- Python `str.strip()`: drop whitespace from both ends. -/
def pyStrip (s : String) : String :=
  String.mk (((s.toList.dropWhile Char.isWhitespace).reverse.dropWhile
      Char.isWhitespace).reverse)

/-- A request body as it arrives on the wire: `speaker` and `speed`
may be omitted (`models.py` gives them defaults). -/
structure RawTTSRequest where
  text : String
  speaker : Option String
  speed : Option Rat
deriving DecidableEq

/-- A `TTSRequest` that passed pydantic validation (`models.py`). -/
structure TTSRequest where
  text : String
  speaker : String
  speed : Rat
deriving DecidableEq

/-- The `validate_text` class validator of `models.py`: reject text that
is empty after stripping, and return the stripped text. -/
def validate_text (v : String) : Except String String :=
  if pyStrip v = "" then Except.error "Text cannot be empty"
  else Except.ok (pyStrip v)

/-- The `text` field checks: the `Field(min_length=1, max_length=1000)`
constraints run on the raw value, then the `validate_text` validator. -/
def fieldCheckText (v : String) : Except String String :=
  if v.length < 1 then
    Except.error "ensure this value has at least 1 characters"
  else if 1000 < v.length then
    Except.error "ensure this value has at most 1000 characters"
  else validate_text v

/-- The `validate_speed` class validator of `models.py`:
`if not 0.5 <= v <= 2.0: raise`. -/
def validate_speed (v : Rat) : Except String Rat :=
  if ¬ (mkRat 1 2 ≤ v ∧ v ≤ 2) then
    Except.error "Speed must be between 0.5 and 2.0"
  else Except.ok v

/-- The `speed` field checks: the `Field(ge=0.5, le=2.0)` constraints,
then the `validate_speed` validator. -/
def fieldCheckSpeed (v : Rat) : Except String Rat :=
  if v < mkRat 1 2 then
    Except.error "ensure this value is greater than or equal to 0.5"
  else if 2 < v then
    Except.error "ensure this value is less than or equal to 2.0"
  else validate_speed v

/-- Pydantic validation of a request body against the `TTSRequest`
model: defaults `speaker="EN-US"` and `speed=1.0` are filled in for
omitted fields, the field constraints and validators run, and any
failure becomes a 422 validation error. -/
def validateTTSRequest (raw : RawTTSRequest) : Except String TTSRequest :=
  match fieldCheckText raw.text with
  | Except.error e => Except.error e
  | Except.ok t =>
    match fieldCheckSpeed (raw.speed.getD 1) with
    | Except.error e => Except.error e
    | Except.ok v =>
      Except.ok { text := t, speaker := raw.speaker.getD "EN-US", speed := v }

/-- Global mutable state of `main.py`: the speaker list and the
readiness flag, plus the resolved device (for `/health`). -/
structure ServerState where
  speakers : List String
  model_ready : Bool
  device : String
deriving DecidableEq

/-- State at process start: no speakers, model not ready. -/
def initialState (device : String) : ServerState :=
  { speakers := [], model_ready := false, device := device }

/-- Outcome of the model-load attempt in the lifespan handler. -/
inductive LoadOutcome where
  | loaded (speakerIds : List String)
  | loadFailed
deriving DecidableEq

/-- The lifespan startup of `main.py`: on success the speaker list is
populated from `spk2id` and the readiness flag flips to true; on
failure the flag stays false. -/
def lifespanStartup (st : ServerState) (r : LoadOutcome) : ServerState :=
  match r with
  | LoadOutcome.loaded ids => { st with speakers := ids, model_ready := true }
  | LoadOutcome.loadFailed => { st with model_ready := false }

/-- `HealthResponse` of `models.py`. -/
structure HealthResponse where
  status : String
  speakers_loaded : Bool
  model_ready : Bool
  available_speakers : Nat
  device : String
deriving DecidableEq

/-- The `/health` handler of `main.py`. -/
def health_check (st : ServerState) : HealthResponse :=
  { status := if st.model_ready then "ok" else "loading"
    speakers_loaded := decide (0 < st.speakers.length)
    model_ready := st.model_ready
    available_speakers := st.speakers.length
    device := st.device }

/-- Language key of a speaker in `get_speakers`:
`speaker.split('-')[0] if '-' in speaker else speaker`. -/
def langOf (s : String) : String :=
  if '-' ∈ s.toList then
    String.mk (s.toList.takeWhile (fun c => c ≠ '-'))
  else s

/-- One step of the grouping loop: append `speaker` to the bucket of
`lang`, creating the bucket at the end on first occurrence (Python
dicts preserve insertion order). -/
def insertGroup (groups : List (String × List String)) (lang : String)
    (speaker : String) : List (String × List String) :=
  match groups with
  | [] => [(lang, [speaker])]
  | (l, ss) :: rest =>
    if l = lang then (l, ss ++ [speaker]) :: rest
    else (l, ss) :: insertGroup rest lang speaker

/-- The grouping loop of `get_speakers`. -/
def language_groups (speakers : List String) : List (String × List String) :=
  speakers.foldl (fun g s => insertGroup g (langOf s) s) []

/-- `SpeakersResponse` of `models.py` (the `languages` dict is an
insertion-ordered association list). -/
structure SpeakersResponse where
  speakers : List String
  total : Nat
  languages : List (String × List String)
deriving DecidableEq

/-- The `/speakers` handler of `main.py`: 503 when the model is not
ready, otherwise the speaker list, its size, and the grouping. -/
def get_speakers (st : ServerState) : Except Nat SpeakersResponse :=
  if st.model_ready = false then Except.error 503
  else
    Except.ok
      { speakers := st.speakers
        total := st.speakers.length
        languages := language_groups st.speakers }

/-- A Python exception as seen by the handlers: either a `ValueError`
(mapped to 400) or any other exception (mapped to 500). -/
inductive PyErr where
  | valueError (msg : String)
  | otherError (msg : String)
deriving DecidableEq

/-- The external MeloTTS model call (`tts_model.tts_to_file`): given
text, speaker and speed it yields WAV bytes or raises. -/
def TtsModel : Type := String → String → Rat → Except PyErr (List Nat)

/-- The external pydub transcoding step (`AudioSegment.from_file` +
`export(format="mp3")`): WAV bytes to MP3 bytes, or raises. -/
def Transcoder : Type := List Nat → Except PyErr (List Nat)

/-- Observable events of a request, in order: submission to the worker
pool, the model invocation inside the worker, and server-side error
logging. -/
inductive Event where
  | dispatch
  | modelCall (text speaker : String) (speed : Rat)
  | logError (msg : String)
deriving DecidableEq

/-- The standard base64 alphabet. -/
def base64Alphabet : List Char :=
  "ABCDEFGHIJKLMNOPQRSTUVWXYZabcdefghijklmnopqrstuvwxyz0123456789+/".toList

/-- Character for a 6-bit group. -/
def b64Char (n : Nat) : Char := base64Alphabet.getD n 'A'

/-- Base64 encoding of a byte list, three bytes at a time with `=`
padding (the semantics of `base64.b64encode`). -/
def b64encodeChunks : List Nat → List Char
  | [] => []
  | [a] =>
    [b64Char (a / 4 % 64), b64Char (a % 4 * 16), '=', '=']
  | [a, b] =>
    [b64Char (a / 4 % 64), b64Char (a % 4 * 16 + b / 16),
     b64Char (b % 16 * 4), '=']
  | a :: b :: c :: rest =>
    [b64Char (a / 4 % 64), b64Char (a % 4 * 16 + b / 16),
     b64Char (b % 16 * 4 + c / 64), b64Char (c % 64)] ++ b64encodeChunks rest

/-- `base64.b64encode(...).decode("utf-8")`. -/
def b64encode (bytes : List Nat) : String := String.mk (b64encodeChunks bytes)

/-- `generate_wav_audio` of `main.py`, run inside a worker: readiness
check (RuntimeError), speaker membership in `spk2id` (ValueError),
length check against `settings.MAX_TEXT_LENGTH` (ValueError), then the
model call.  The second component records whether the model was
actually invoked. -/
def generate_wav_audio (tts : TtsModel) (cfg : Settings) (st : ServerState)
    (text speaker : String) (speed : Rat) :
    Except PyErr (List Nat) × List Event :=
  if st.model_ready = false then
    (Except.error (PyErr.otherError "Model is not ready"), [])
  else if speaker ∉ st.speakers then
    (Except.error (PyErr.valueError ("Speaker " ++ speaker ++ " not found")), [])
  else if cfg.MAX_TEXT_LENGTH < text.length then
    (Except.error (PyErr.valueError
      ("Text too long. Maximum length: " ++ toString cfg.MAX_TEXT_LENGTH)), [])
  else
    (tts text speaker speed, [Event.modelCall text speaker speed])

/-- `generate_base64_mp3` of `main.py`: WAV generation, pydub
transcoding to MP3, base64 encoding. -/
def generate_base64_mp3 (tts : TtsModel) (codec : Transcoder) (cfg : Settings)
    (st : ServerState) (text speaker : String) (speed : Rat) :
    Except PyErr String × List Event :=
  let r := generate_wav_audio tts cfg st text speaker speed
  match r.fst with
  | Except.error e => (Except.error e, r.snd)
  | Except.ok wav =>
    match codec wav with
    | Except.error e => (Except.error e, r.snd)
    | Except.ok mp3 => (Except.ok (b64encode mp3), r.snd)

/-- Response of the `/tts` endpoint: a streamed WAV body (the
`Content-Disposition` filename echoes the speaker) or an HTTP error
with a status code and a `detail` string. -/
inductive TtsHttp where
  | stream (audioBytes : List Nat) (speaker : String)
  | httpError (code : Nat) (detail : String)
deriving DecidableEq

/-- HTTP status code of a `/tts` response (a streamed body is 200). -/
def TtsHttp.statusCode : TtsHttp → Nat
  | TtsHttp.stream _ _ => 200
  | TtsHttp.httpError c _ => c

/-- `TTSResponse` of `models.py` (the `/synthesize` success body). -/
structure TTSResponseModel where
  audio_content : String
  format : String
  speaker : String
  speed : Rat
deriving DecidableEq

/-- Response of the `/synthesize` endpoint. -/
inductive SynthHttp where
  | ok (body : TTSResponseModel)
  | httpError (code : Nat) (detail : String)
deriving DecidableEq

/-- HTTP status code of a `/synthesize` response. -/
def SynthHttp.statusCode : SynthHttp → Nat
  | SynthHttp.ok _ => 200
  | SynthHttp.httpError c _ => c

/-- The `/tts` endpoint (`synthesize` in `main.py`): pydantic
validation of the body (422 on failure, before the handler body runs),
the readiness check (503), then dispatch of `generate_wav_audio` to the
worker pool; a `ValueError` from the worker becomes 400 with the
exception text as detail, any other exception becomes 500 with the
fixed detail `Synthesis failed` and a server-side log entry. -/
def handle_tts (tts : TtsModel) (cfg : Settings) (st : ServerState)
    (raw : RawTTSRequest) : TtsHttp × List Event :=
  match validateTTSRequest raw with
  | Except.error _ => (TtsHttp.httpError 422 "request validation failed", [])
  | Except.ok req =>
    if st.model_ready = false then
      (TtsHttp.httpError 503 "Model is not ready yet", [])
    else
      let r := generate_wav_audio tts cfg st req.text req.speaker req.speed
      match r.fst with
      | Except.ok audioBytes =>
        (TtsHttp.stream audioBytes req.speaker, Event.dispatch :: r.snd)
      | Except.error (PyErr.valueError m) =>
        (TtsHttp.httpError 400 m, Event.dispatch :: r.snd)
      | Except.error (PyErr.otherError m) =>
        (TtsHttp.httpError 500 "Synthesis failed",
         Event.dispatch :: (r.snd ++ [Event.logError m]))

/-- The `/synthesize` endpoint (`synthesize_base64` in `main.py`): same
shape as `/tts` but dispatching `generate_base64_mp3` and answering
with the JSON body `TTSResponse`. -/
def handle_synthesize (tts : TtsModel) (codec : Transcoder) (cfg : Settings)
    (st : ServerState) (raw : RawTTSRequest) : SynthHttp × List Event :=
  match validateTTSRequest raw with
  | Except.error _ => (SynthHttp.httpError 422 "request validation failed", [])
  | Except.ok req =>
    if st.model_ready = false then
      (SynthHttp.httpError 503 "Model is not ready yet", [])
    else
      let r := generate_base64_mp3 tts codec cfg st req.text req.speaker req.speed
      match r.fst with
      | Except.ok b64 =>
        (SynthHttp.ok
          { audio_content := b64, format := "mp3",
            speaker := req.speaker, speed := req.speed },
         Event.dispatch :: r.snd)
      | Except.error (PyErr.valueError m) =>
        (SynthHttp.httpError 400 m, Event.dispatch :: r.snd)
      | Except.error (PyErr.otherError m) =>
        (SynthHttp.httpError 500 "Synthesis failed",
         Event.dispatch :: (r.snd ++ [Event.logError m]))

/-- A ready server state with one registered speaker. -/
def readyState : ServerState :=
  { speakers := ["EN-US"], model_ready := true, device := "cpu" }

/-- A model stub producing one byte of audio. -/
def ttsStub : TtsModel := fun _ _ _ => Except.ok [0]

/-- A codec stub producing two bytes of MP3. -/
def codecStub : Transcoder := fun _ => Except.ok [7, 8]

/-- A model stub that always raises a generic (non-ValueError)
exception. -/
def ttsBoom : TtsModel := fun _ _ _ =>
  Except.error (PyErr.otherError "CUDA out of memory")

/-- A well-formed raw request. -/
def helloRaw : RawTTSRequest :=
  { text := "Hello world", speaker := some "EN-US", speed := some 1 }

/-- A raw request with 1001 characters of text. -/
def longRaw : RawTTSRequest :=
  { text := String.mk (List.replicate 1001 'a')
    speaker := some "EN-US"
    speed := some 1 }

/-- A raw request whose text has raw length 1001 but stripped length
1000 (a trailing blank). -/
def paddedRaw : RawTTSRequest :=
  { text := String.mk (List.replicate 1000 'a' ++ [' '])
    speaker := some "EN-US"
    speed := some 1 }

/-- Settings with the text-length bound configured above the pydantic
cap of the request model. -/
def cfg1001 : Settings := { defaultSettings with MAX_TEXT_LENGTH := 1001 }

/-- Settings whose configured default speaker and default speed differ
from the request-model literals. -/
def cfgAU : Settings :=
  { defaultSettings with DEFAULT_SPEAKER := "EN-AU", DEFAULT_SPEED := mkRat 3 2 }

/-! ## Helper lemmas -/

/-- `dropWhile` never lengthens a list. -/
lemma length_dropWhile_le (p : Char → Bool) (l : List Char) :
    (l.dropWhile p).length ≤ l.length := by
  induction l with
  | nil => simp
  | cons a t ih =>
    by_cases h : p a
    · simp [List.dropWhile, h]
      omega
    · simp [List.dropWhile, h]

/-- Rebuilding a string from its character data is the identity. -/
lemma string_mk_data (s : String) : String.mk s.data = s := by
  cases s
  rfl

/-- A string of length zero is the empty string. -/
lemma string_length_eq_zero {s : String} (h : s.length = 0) : s = "" := by
  cases s with
  | mk d =>
    simp [String.length] at h
    simp [h]

/-- Stripping never lengthens a string. -/
lemma pyStrip_length_le (s : String) : (pyStrip s).length ≤ s.length := by
  have h1 := length_dropWhile_le Char.isWhitespace s.toList
  have h2 := length_dropWhile_le Char.isWhitespace
    (s.toList.dropWhile Char.isWhitespace).reverse
  calc (pyStrip s).length
      = ((s.toList.dropWhile Char.isWhitespace).reverse.dropWhile
          Char.isWhitespace).reverse.length := rfl
    _ = ((s.toList.dropWhile Char.isWhitespace).reverse.dropWhile
          Char.isWhitespace).length := by simp
    _ ≤ (s.toList.dropWhile Char.isWhitespace).reverse.length := h2
    _ = (s.toList.dropWhile Char.isWhitespace).length := by simp
    _ ≤ s.toList.length := h1
    _ = s.length := rfl

/-- A string whose stripped form is non-empty is itself non-empty. -/
lemma text_pos_of_pyStrip_ne {s : String} (h : pyStrip s ≠ "") :
    1 ≤ s.length := by
  by_contra hc
  push_neg at hc
  have h0 : s.length = 0 := by omega
  have hs : s = "" := string_length_eq_zero h0
  exact h (by rw [hs]; rfl)

/-- Characterization of successful pydantic validation: when the
stripped text is non-empty, the raw text is within the hardcoded
1000-character cap, and the (defaulted) speed is within the bound,
validation succeeds and yields the stripped text, the defaulted
speaker, and the defaulted speed. -/
lemma validateTTSRequest_ok (raw : RawTTSRequest)
    (htrim : pyStrip raw.text ≠ "")
    (hcap : raw.text.length ≤ 1000)
    (hlo : mkRat 1 2 ≤ raw.speed.getD 1)
    (hhi : raw.speed.getD 1 ≤ 2) :
    validateTTSRequest raw =
      Except.ok
        { text := pyStrip raw.text
          speaker := raw.speaker.getD "EN-US"
          speed := raw.speed.getD 1 } := by
  have hpos : 1 ≤ raw.text.length := text_pos_of_pyStrip_ne htrim
  have h1 : ¬ (raw.text.length < 1) := by omega
  have h2 : ¬ (1000 < raw.text.length) := by omega
  have h3 : ¬ (raw.speed.getD 1 < mkRat 1 2) := not_lt.mpr hlo
  have h4 : ¬ ((2 : Rat) < raw.speed.getD 1) := not_lt.mpr hhi
  simp [validateTTSRequest, fieldCheckText, validate_text, fieldCheckSpeed,
    validate_speed, h1, h2, h3, h4, hlo, hhi, htrim]

/-- When the service is ready, the speaker is registered and the text is
within the configured bound, the WAV helper reduces to the model call
and records the invocation. -/
lemma generate_wav_audio_ok (tts : TtsModel) (cfg : Settings)
    (st : ServerState) (text speaker : String) (speed : Rat)
    (hready : st.model_ready = true)
    (hsp : speaker ∈ st.speakers)
    (hlen : text.length ≤ cfg.MAX_TEXT_LENGTH) :
    generate_wav_audio tts cfg st text speaker speed =
      (tts text speaker speed, [Event.modelCall text speaker speed]) := by
  have h1 : ¬ (st.model_ready = false) := by simp [hready]
  have h2 : ¬ (speaker ∉ st.speakers) := not_not_intro hsp
  have h3 : ¬ (cfg.MAX_TEXT_LENGTH < text.length) := not_lt.mpr hlen
  simp [generate_wav_audio, h1, h2, h3]

/-- Base64 of a non-empty byte list is a non-empty character list. -/
lemma b64encodeChunks_ne_nil {l : List Nat} (h : l ≠ []) :
    b64encodeChunks l ≠ [] := by
  match l with
  | [] => exact absurd rfl h
  | [a] => simp [b64encodeChunks]
  | [a, b] => simp [b64encodeChunks]
  | a :: b :: c :: rest => simp [b64encodeChunks]

/-- Base64 of a non-empty byte list is a non-empty string. -/
lemma b64encode_ne_empty {l : List Nat} (h : l ≠ []) : b64encode l ≠ "" := by
  intro hc
  have hchunks : b64encodeChunks l = [] := by
    have hdata := congrArg String.data hc
    simpa [b64encode] using hdata
  exact b64encodeChunks_ne_nil h hchunks

/-- The complete shape of the event trace of a `/tts` request: either
nothing happened (validation failure or service not ready), or the
request was dispatched and then possibly the model was called with the
validated parameters, possibly followed by an error log. -/
lemma handle_tts_events (tts : TtsModel) (cfg : Settings) (st : ServerState)
    (raw : RawTTSRequest) :
    (handle_tts tts cfg st raw).snd = [] ∨
    ∃ req, validateTTSRequest raw = Except.ok req ∧
      ((handle_tts tts cfg st raw).snd = [Event.dispatch] ∨
       (handle_tts tts cfg st raw).snd =
         [Event.dispatch, Event.modelCall req.text req.speaker req.speed] ∨
       ∃ m, (handle_tts tts cfg st raw).snd =
         [Event.dispatch, Event.modelCall req.text req.speaker req.speed,
          Event.logError m]) := by
  cases hval : validateTTSRequest raw with
  | error e =>
    left
    simp [handle_tts, hval]
  | ok req =>
    by_cases hr : st.model_ready = false
    · left
      simp [handle_tts, hval, hr]
    · right
      refine ⟨req, rfl, ?_⟩
      by_cases hs : req.speaker ∉ st.speakers
      · left
        simp [handle_tts, hval, hr, generate_wav_audio, hs]
      · by_cases hl : cfg.MAX_TEXT_LENGTH < req.text.length
        · left
          simp [handle_tts, hval, hr, generate_wav_audio, hs, hl]
        · cases htts : tts req.text req.speaker req.speed with
          | ok wav =>
            right; left
            simp [handle_tts, hval, hr, generate_wav_audio, hs, hl, htts]
          | error e =>
            cases e with
            | valueError m =>
              right; left
              simp [handle_tts, hval, hr, generate_wav_audio, hs, hl, htts]
            | otherError m =>
              right; right
              exact ⟨m, by
                simp [handle_tts, hval, hr, generate_wav_audio, hs, hl, htts]⟩

/-- Inversion: a text accepted by the field checks comes out
stripped. -/
lemma fieldCheckText_ok_eq {v t : String}
    (h : fieldCheckText v = Except.ok t) : t = pyStrip v := by
  unfold fieldCheckText validate_text at h
  by_cases h1 : v.length < 1
  · simp [h1] at h
  · by_cases h2 : 1000 < v.length
    · simp [h1, h2] at h
    · by_cases h3 : pyStrip v = ""
      · simp [h1, h2, h3] at h
      · simp [h1, h2, h3] at h
        exact h.symm

/-- A list with no dash is left whole by the dash-prefix `takeWhile`. -/
lemma takeWhile_ne_dash_of_not_mem (l : List Char) (h : '-' ∉ l) :
    l.takeWhile (fun c => c ≠ '-') = l := by
  simp
  intro x hx hc
  exact h (hc ▸ hx)

/-! ## Claims -/

/-- C10: the health handler is a total function of the server state
(it can never fail); its `status` field is `ok` exactly when the model
is ready and `loading` otherwise, `speakers_loaded` holds exactly when
the speaker list is non-empty, and `available_speakers` equals the
length of the speaker list. -/
theorem health_check_total_and_accurate (st : ServerState) :
    ((health_check st).status = "ok" ↔ st.model_ready = true)
    ∧ ((health_check st).status = "loading" ↔ st.model_ready = false)
    ∧ ((health_check st).speakers_loaded = true ↔ st.speakers ≠ [])
    ∧ (health_check st).available_speakers = st.speakers.length
    ∧ (health_check st).model_ready = st.model_ready
    ∧ (health_check st).device = st.device := by
  have hne : ("ok" : String) ≠ "loading" := by decide
  obtain ⟨sp, ready, d⟩ := st
  cases ready <;>
    simp [health_check, hne, hne.symm, List.length_pos]

/-- C7: the `/speakers` grouping key is the substring before the first
dash (the whole identifier when it has no dash); on the speaker list
`EN-US, EN-AU, JP` the grouping is `EN ↦ [EN-US, EN-AU], JP ↦ [JP]`;
and the response `total` equals the length of the speaker list. -/
theorem speakers_grouping (st : ServerState)
    (hready : st.model_ready = true) :
    (∀ s : String, langOf s = String.mk (s.toList.takeWhile (fun c => c ≠ '-')))
    ∧ language_groups ["EN-US", "EN-AU", "JP"] =
        [("EN", ["EN-US", "EN-AU"]), ("JP", ["JP"])]
    ∧ get_speakers st =
        Except.ok
          { speakers := st.speakers
            total := st.speakers.length
            languages := language_groups st.speakers } := by
  refine ⟨?_, by decide, by simp [get_speakers, hready]⟩
  intro s
  by_cases h : '-' ∈ s.toList
  · unfold langOf
    rw [if_pos h]
  · unfold langOf
    rw [if_neg h, takeWhile_ne_dash_of_not_mem s.toList h]
    exact (string_mk_data s).symm

/-- C7 witness: the grouping facts evaluated on a concrete ready
state. -/
theorem speakers_grouping_witness :
    langOf "EN-US" = "EN"
    ∧ language_groups ["EN-US", "EN-AU", "JP"] =
        [("EN", ["EN-US", "EN-AU"]), ("JP", ["JP"])]
    ∧ get_speakers readyState =
        Except.ok
          { speakers := ["EN-US"], total := 1,
            languages := language_groups ["EN-US"] } :=
  ⟨by
    have h := (speakers_grouping readyState rfl).1 "EN-US"
    rw [h]; rfl,
   (speakers_grouping readyState rfl).2.1,
   (speakers_grouping readyState rfl).2.2⟩

/-- C6: while the readiness flag is false, `/speakers` answers 503,
`/tts` and `/synthesize` answer 503 for every request that passes body
validation, no event (neither worker-pool dispatch nor model call) is
produced for any request, `/health` reports `model_ready = false` and
status `loading`; the flag starts false, flips to true exactly on a
successful model load and stays false on a failed load. -/
theorem readiness_gating (tts : TtsModel) (codec : Transcoder)
    (cfg : Settings) (st : ServerState) (raw : RawTTSRequest)
    (d : String) (sp : List String)
    (hnot : st.model_ready = false) :
    get_speakers st = Except.error 503
    ∧ (∀ req, validateTTSRequest raw = Except.ok req →
        (handle_tts tts cfg st raw).fst =
          TtsHttp.httpError 503 "Model is not ready yet"
        ∧ (handle_synthesize tts codec cfg st raw).fst =
            SynthHttp.httpError 503 "Model is not ready yet")
    ∧ (handle_tts tts cfg st raw).snd = []
    ∧ (handle_synthesize tts codec cfg st raw).snd = []
    ∧ (health_check st).model_ready = false
    ∧ (health_check st).status = "loading"
    ∧ (initialState d).model_ready = false
    ∧ (lifespanStartup st (LoadOutcome.loaded sp)).model_ready = true
    ∧ (lifespanStartup st LoadOutcome.loadFailed).model_ready = false := by
  refine ⟨by simp [get_speakers, hnot], ?_, ?_, ?_,
    by simp [health_check, hnot], by simp [health_check, hnot],
    rfl, rfl, rfl⟩
  · intro req hval
    exact ⟨by simp [handle_tts, hval, hnot],
           by simp [handle_synthesize, hval, hnot]⟩
  · cases hval : validateTTSRequest raw with
    | error e => simp [handle_tts, hval]
    | ok req => simp [handle_tts, hval, hnot]
  · cases hval : validateTTSRequest raw with
    | error e => simp [handle_synthesize, hval]
    | ok req => simp [handle_synthesize, hval, hnot]

/-- C6 witness: at the initial (unready) state, a well-formed request
gets 503 from both endpoints with no dispatch, and `/speakers` answers
503. -/
theorem readiness_gating_witness :
    get_speakers (initialState "cpu") = Except.error 503
    ∧ (handle_tts ttsStub defaultSettings (initialState "cpu") helloRaw).fst =
        TtsHttp.httpError 503 "Model is not ready yet"
    ∧ (handle_tts ttsStub defaultSettings (initialState "cpu") helloRaw).snd = [] := by
  have h := readiness_gating ttsStub codecStub defaultSettings
    (initialState "cpu") helloRaw "cpu" [] rfl
  exact ⟨h.1, (h.2.1 _ rfl).1, h.2.2.1⟩

set_option maxRecDepth 40000 in
/-- C1 counterexample: with the maximum text length configured to 1001,
a request of 1001 characters meets every premise of the claim (text
non-empty after trimming and within the configured maximum, registered
speaker, speed 1, ready service, model call succeeding with non-empty
audio), yet `/tts` answers 422 instead of audio: the request model caps
text at a hardcoded 1000 characters regardless of the configuration. -/
theorem config_max_above_cap_rejected :
    pyStrip longRaw.text ≠ ""
    ∧ longRaw.text.length ≤ cfg1001.MAX_TEXT_LENGTH
    ∧ "EN-US" ∈ readyState.speakers
    ∧ readyState.model_ready = true
    ∧ ttsStub (pyStrip longRaw.text) "EN-US" 1 = Except.ok [0]
    ∧ (handle_tts ttsStub cfg1001 readyState longRaw).fst =
        TtsHttp.httpError 422 "request validation failed" :=
  ⟨by decide, by decide, by decide, rfl, rfl, rfl⟩

/-- C1 (amended): for every request whose text is non-empty after
trimming and has length at most the configured maximum AND at most the
request-model cap of 1000 characters, whose speaker is registered, and
whose speed lies in [0.5, 2.0], both endpoints succeed: `/tts` streams
the WAV bytes and `/synthesize` returns a non-empty base64 payload,
assuming the service is ready and the external model and codec calls
succeed with non-empty output. -/
theorem valid_request_yields_nonempty_audio
    (tts : TtsModel) (codec : Transcoder) (cfg : Settings)
    (st : ServerState) (text sp : String) (v : Rat) (wav mp3 : List Nat)
    (hready : st.model_ready = true)
    (htrim : pyStrip text ≠ "")
    (hlen : text.length ≤ cfg.MAX_TEXT_LENGTH)
    (hcap : text.length ≤ 1000)
    (hsp : sp ∈ st.speakers)
    (hlo : mkRat 1 2 ≤ v) (hhi : v ≤ 2)
    (hwav : tts (pyStrip text) sp v = Except.ok wav) (hwavne : wav ≠ [])
    (hmp3 : codec wav = Except.ok mp3) (hmp3ne : mp3 ≠ []) :
    (handle_tts tts cfg st
        { text := text, speaker := some sp, speed := some v }).fst =
      TtsHttp.stream wav sp
    ∧ wav ≠ []
    ∧ (handle_synthesize tts codec cfg st
        { text := text, speaker := some sp, speed := some v }).fst =
      SynthHttp.ok
        { audio_content := b64encode mp3, format := "mp3",
          speaker := sp, speed := v }
    ∧ b64encode mp3 ≠ "" := by
  have hval := validateTTSRequest_ok
    { text := text, speaker := some sp, speed := some v } htrim hcap hlo hhi
  have hgen := generate_wav_audio_ok tts cfg st (pyStrip text) sp v hready hsp
    (le_trans (pyStrip_length_le text) hlen)
  refine ⟨?_, hwavne, ?_, b64encode_ne_empty hmp3ne⟩
  · simp [handle_tts, hval, hready, hgen, hwav]
  · simp [handle_synthesize, hval, hready, generate_base64_mp3, hgen,
      hwav, hmp3]

/-- C1 witness: the amended claim evaluated at a concrete valid
request against a ready service. -/
theorem valid_request_yields_nonempty_audio_witness :
    (handle_tts ttsStub defaultSettings readyState helloRaw).fst =
      TtsHttp.stream [0] "EN-US"
    ∧ b64encode [7, 8] ≠ "" := by
  have h := valid_request_yields_nonempty_audio ttsStub codecStub
    defaultSettings readyState "Hello world" "EN-US" 1 [0] [7, 8]
    rfl (by decide) (by decide) (by decide) (by decide)
    (by decide) (by decide) rfl (by decide) rfl (by decide)
  exact ⟨h.1, h.2.2.2⟩

/-- C4: a request carrying a speed outside [0.5, 2.0] is answered 422
by both endpoints (pydantic validation), and the speed field checks
accept every speed inside the interval. -/
theorem speed_bounds_validation (tts : TtsModel) (codec : Transcoder)
    (cfg : Settings) (st : ServerState) (raw : RawTTSRequest) (v : Rat) :
    (raw.speed = some v → ¬ (mkRat 1 2 ≤ v ∧ v ≤ 2) →
       (handle_tts tts cfg st raw).fst.statusCode = 422
       ∧ (handle_synthesize tts codec cfg st raw).fst.statusCode = 422)
    ∧ (mkRat 1 2 ≤ v → v ≤ 2 → fieldCheckSpeed v = Except.ok v) := by
  constructor
  · intro hv hbad
    have hverr : ∃ e, fieldCheckSpeed v = Except.error e := by
      rcases not_and_or.mp hbad with h | h
      · exact ⟨"ensure this value is greater than or equal to 0.5",
          by simp [fieldCheckSpeed, not_le.mp h]⟩
      · have h2 : (2 : Rat) < v := not_le.mp h
        have hgt : mkRat 1 2 ≤ v :=
          le_of_lt (lt_of_le_of_lt (by decide : mkRat 1 2 ≤ 2) h2)
        have h1 : ¬ (v < mkRat 1 2) := not_lt.mpr hgt
        exact ⟨"ensure this value is less than or equal to 2.0",
          by simp [fieldCheckSpeed, h1, h2]⟩
    have hvalerr : ∃ e, validateTTSRequest raw = Except.error e := by
      obtain ⟨e, he⟩ := hverr
      cases ht : fieldCheckText raw.text with
      | error e2 => exact ⟨e2, by simp [validateTTSRequest, ht]⟩
      | ok t => exact ⟨e, by simp [validateTTSRequest, ht, hv, he]⟩
    obtain ⟨e, he⟩ := hvalerr
    exact ⟨by simp [handle_tts, he, TtsHttp.statusCode],
           by simp [handle_synthesize, he, SynthHttp.statusCode]⟩
  · intro hlo hhi
    simp [fieldCheckSpeed, validate_speed, not_lt.mpr hlo, not_lt.mpr hhi,
      hlo, hhi]

/-- C4 witness: speed 3 is answered 422 on `/tts`, and speed 1 passes
the speed field checks. -/
theorem speed_bounds_validation_witness :
    (handle_tts ttsStub defaultSettings readyState
        { text := "Hello world", speaker := some "EN-US",
          speed := some 3 }).fst.statusCode = 422
    ∧ fieldCheckSpeed 1 = Except.ok 1 := by
  have h3 := speed_bounds_validation ttsStub codecStub defaultSettings
    readyState
    { text := "Hello world", speaker := some "EN-US", speed := some 3 } 3
  have h1 := speed_bounds_validation ttsStub codecStub defaultSettings
    readyState
    { text := "Hello world", speaker := some "EN-US", speed := some 3 } 1
  exact ⟨(h3.1 rfl (by decide)).1, h1.2 (by decide) (by decide)⟩

/-- C9: when the model call (or, for `/synthesize`, the codec step)
raises a non-ValueError exception, the client receives 500 with the
fixed detail string `Synthesis failed` - independent of the exception
text, which is only written to the server-side log. -/
theorem synthesis_error_translated_to_500 (tts : TtsModel)
    (codec : Transcoder) (cfg : Settings) (st : ServerState)
    (raw : RawTTSRequest) (req : TTSRequest) (msg : String) (wav : List Nat)
    (hval : validateTTSRequest raw = Except.ok req)
    (hready : st.model_ready = true)
    (hsp : req.speaker ∈ st.speakers)
    (hlen : req.text.length ≤ cfg.MAX_TEXT_LENGTH) :
    (tts req.text req.speaker req.speed = Except.error (PyErr.otherError msg) →
       (handle_tts tts cfg st raw).fst =
         TtsHttp.httpError 500 "Synthesis failed"
       ∧ Event.logError msg ∈ (handle_tts tts cfg st raw).snd
       ∧ (handle_synthesize tts codec cfg st raw).fst =
           SynthHttp.httpError 500 "Synthesis failed"
       ∧ Event.logError msg ∈ (handle_synthesize tts codec cfg st raw).snd)
    ∧ (tts req.text req.speaker req.speed = Except.ok wav →
       codec wav = Except.error (PyErr.otherError msg) →
       (handle_synthesize tts codec cfg st raw).fst =
           SynthHttp.httpError 500 "Synthesis failed"
       ∧ Event.logError msg ∈ (handle_synthesize tts codec cfg st raw).snd) := by
  have hgen := generate_wav_audio_ok tts cfg st req.text req.speaker
    req.speed hready hsp hlen
  constructor
  · intro htts
    refine ⟨by simp [handle_tts, hval, hready, hgen, htts],
      by simp [handle_tts, hval, hready, hgen, htts],
      by simp [handle_synthesize, hval, hready, generate_base64_mp3, hgen, htts],
      by simp [handle_synthesize, hval, hready, generate_base64_mp3, hgen, htts]⟩
  · intro htts hcodec
    exact ⟨by simp [handle_synthesize, hval, hready, generate_base64_mp3,
        hgen, htts, hcodec],
      by simp [handle_synthesize, hval, hready, generate_base64_mp3,
        hgen, htts, hcodec]⟩

/-- C9 witness: a model stub that raises a generic exception yields 500
with the fixed detail, and the raw message appears in the log trace. -/
theorem synthesis_error_translated_to_500_witness :
    (handle_tts ttsBoom defaultSettings readyState helloRaw).fst =
      TtsHttp.httpError 500 "Synthesis failed"
    ∧ Event.logError "CUDA out of memory" ∈
        (handle_tts ttsBoom defaultSettings readyState helloRaw).snd := by
  have h := synthesis_error_translated_to_500 ttsBoom codecStub
    defaultSettings readyState helloRaw
    { text := "Hello world", speaker := "EN-US", speed := 1 }
    "CUDA out of memory" [0] rfl rfl (by decide) (by decide)
  exact ⟨(h.1 rfl).1, (h.1 rfl).2.1⟩

/-- C2 counterexample: a request whose fields are well-formed but whose
speaker is unregistered fails the speaker-membership validation, yet
the worker-pool dispatch has already happened: the event trace is
exactly one dispatch and the response is the 400 produced inside the
worker. -/
theorem invalid_speaker_still_dispatched :
    (handle_tts ttsStub defaultSettings readyState
        { text := "Hello world", speaker := some "ZZ",
          speed := some 1 }).snd = [Event.dispatch]
    ∧ (handle_tts ttsStub defaultSettings readyState
        { text := "Hello world", speaker := some "ZZ",
          speed := some 1 }).fst =
      TtsHttp.httpError 400 "Speaker ZZ not found" :=
  ⟨rfl, rfl⟩

/-- C2 (amended): requests failing pydantic field validation (empty or
over-cap text, out-of-bound speed) produce no event at all - no
worker-pool dispatch and no model call; the speaker-membership check,
however, runs inside the worker after the dispatch: a field-valid
request with an unregistered speaker produces exactly a dispatch event,
no model call, and a 400 response. -/
theorem field_validation_before_dispatch (tts : TtsModel)
    (codec : Transcoder) (cfg : Settings) (st : ServerState)
    (raw : RawTTSRequest) :
    (∀ e, validateTTSRequest raw = Except.error e →
       (handle_tts tts cfg st raw).snd = []
       ∧ (handle_synthesize tts codec cfg st raw).snd = [])
    ∧ (∀ req, validateTTSRequest raw = Except.ok req →
        st.model_ready = true → req.speaker ∉ st.speakers →
        (handle_tts tts cfg st raw).snd = [Event.dispatch]
        ∧ (handle_synthesize tts codec cfg st raw).snd = [Event.dispatch]
        ∧ (handle_tts tts cfg st raw).fst.statusCode = 400) := by
  constructor
  · intro e he
    exact ⟨by simp [handle_tts, he], by simp [handle_synthesize, he]⟩
  · intro req hval hready hsp
    refine ⟨?_, ?_, ?_⟩
    · simp [handle_tts, hval, hready, generate_wav_audio, hsp]
    · simp [handle_synthesize, hval, hready, generate_base64_mp3,
        generate_wav_audio, hsp]
    · simp [handle_tts, hval, hready, generate_wav_audio, hsp,
        TtsHttp.statusCode]

/-- C2 witness: an empty-text request produces no event; a valid-field
request with an unknown speaker produces exactly a dispatch. -/
theorem field_validation_before_dispatch_witness :
    (handle_tts ttsStub defaultSettings readyState
        { text := "", speaker := some "EN-US", speed := some 1 }).snd = []
    ∧ (handle_tts ttsStub defaultSettings readyState
        { text := "Hello world", speaker := some "ZZ",
          speed := some 1 }).snd = [Event.dispatch] := by
  have h1 := field_validation_before_dispatch ttsStub codecStub
    defaultSettings readyState
    { text := "", speaker := some "EN-US", speed := some 1 }
  have h2 := field_validation_before_dispatch ttsStub codecStub
    defaultSettings readyState
    { text := "Hello world", speaker := some "ZZ", speed := some 1 }
  exact ⟨(h1.1 "ensure this value has at least 1 characters" rfl).1,
    (h2.2 { text := "Hello world", speaker := "ZZ", speed := 1 }
      rfl rfl (by decide)).1⟩

/-- C3 counterexample: a request whose speaker is unregistered AND
whose text is empty is answered 422 (pydantic body validation wins),
not 400, on both endpoints - contradicting "400 regardless of
text/speed validity". -/
theorem unknown_speaker_with_invalid_text_not_400 :
    ("ZZ" ∉ readyState.speakers)
    ∧ (handle_tts ttsStub defaultSettings readyState
        { text := "", speaker := some "ZZ", speed := some 1 }).fst =
      TtsHttp.httpError 422 "request validation failed"
    ∧ (handle_tts ttsStub defaultSettings readyState
        { text := "", speaker := some "ZZ",
          speed := some 1 }).fst.statusCode ≠ 400
    ∧ (handle_synthesize ttsStub codecStub defaultSettings readyState
        { text := "", speaker := some "ZZ",
          speed := some 1 }).fst.statusCode ≠ 400 :=
  ⟨by decide, rfl, by decide, by decide⟩

/-- C3 (amended): for every request that passes body validation against
a ready service, an unregistered speaker makes both endpoints answer
400 with the speaker named in the detail. -/
theorem unknown_speaker_gives_400 (tts : TtsModel) (codec : Transcoder)
    (cfg : Settings) (st : ServerState) (raw : RawTTSRequest)
    (req : TTSRequest)
    (hval : validateTTSRequest raw = Except.ok req)
    (hready : st.model_ready = true)
    (hsp : req.speaker ∉ st.speakers) :
    (handle_tts tts cfg st raw).fst =
      TtsHttp.httpError 400 ("Speaker " ++ req.speaker ++ " not found")
    ∧ (handle_synthesize tts codec cfg st raw).fst =
      SynthHttp.httpError 400 ("Speaker " ++ req.speaker ++ " not found") :=
  ⟨by simp [handle_tts, hval, hready, generate_wav_audio, hsp],
   by simp [handle_synthesize, hval, hready, generate_base64_mp3,
     generate_wav_audio, hsp]⟩

/-- C3 witness: a concrete unregistered speaker with otherwise valid
fields yields 400 on `/tts`. -/
theorem unknown_speaker_gives_400_witness :
    (handle_tts ttsStub defaultSettings readyState
        { text := "Hello world", speaker := some "ZZ",
          speed := some 1 }).fst =
      TtsHttp.httpError 400 "Speaker ZZ not found" := by
  have h := unknown_speaker_gives_400 ttsStub codecStub defaultSettings
    readyState
    { text := "Hello world", speaker := some "ZZ", speed := some 1 }
    { text := "Hello world", speaker := "ZZ", speed := 1 }
    rfl rfl (by decide)
  exact h.1

set_option maxRecDepth 40000 in
/-- C5 counterexample: with the default configuration (maximum 1000), a
text of raw length 1001 whose trimmed form has length 1000 - within the
configured maximum and non-empty - is nevertheless rejected as too
long: the request-model length check runs on the untrimmed text. -/
theorem trimmed_within_max_still_rejected :
    (pyStrip paddedRaw.text).length ≤ defaultSettings.MAX_TEXT_LENGTH
    ∧ pyStrip paddedRaw.text ≠ ""
    ∧ validateTTSRequest paddedRaw =
        Except.error "ensure this value has at most 1000 characters"
    ∧ (handle_tts ttsStub defaultSettings readyState
        paddedRaw).fst.statusCode = 422 :=
  ⟨by decide, by decide, rfl, rfl⟩

/-- C5 (amended): trimming is applied before the emptiness check and
the text used for synthesis is the trimmed text; the request-model
maximum-length check, however, applies to the untrimmed text against
the hardcoded cap of 1000 characters: a raw text longer than 1000 is
rejected regardless of its trimmed length, and validation succeeds on a
trimmed-non-empty text whose raw length is within the cap and whose
speed is within bounds. -/
theorem trim_semantics (tts : TtsModel) (cfg : Settings)
    (st : ServerState) (raw : RawTTSRequest) :
    (∀ req, validateTTSRequest raw = Except.ok req →
       req.text = pyStrip raw.text)
    ∧ (pyStrip raw.text = "" → ∃ e, validateTTSRequest raw = Except.error e)
    ∧ (1000 < raw.text.length →
       validateTTSRequest raw =
         Except.error "ensure this value has at most 1000 characters")
    ∧ (pyStrip raw.text ≠ "" → raw.text.length ≤ 1000 →
       mkRat 1 2 ≤ raw.speed.getD 1 → raw.speed.getD 1 ≤ 2 →
       validateTTSRequest raw =
         Except.ok
           { text := pyStrip raw.text
             speaker := raw.speaker.getD "EN-US"
             speed := raw.speed.getD 1 })
    ∧ (∀ t s v, Event.modelCall t s v ∈ (handle_tts tts cfg st raw).snd →
       t = pyStrip raw.text) := by
  have hpart1 : ∀ req, validateTTSRequest raw = Except.ok req →
      req.text = pyStrip raw.text := by
    intro req hval
    unfold validateTTSRequest at hval
    cases ht : fieldCheckText raw.text with
    | error e => rw [ht] at hval; exact absurd hval (by simp)
    | ok t =>
      rw [ht] at hval
      cases hs : fieldCheckSpeed (raw.speed.getD 1) with
      | error e => rw [hs] at hval; exact absurd hval (by simp)
      | ok v2 =>
        rw [hs] at hval
        injection hval with h
        subst h
        exact fieldCheckText_ok_eq ht
  refine ⟨hpart1, ?_, ?_, ?_, ?_⟩
  · intro hblank
    by_cases h1 : raw.text.length < 1
    · exact ⟨"ensure this value has at least 1 characters",
        by simp [validateTTSRequest, fieldCheckText, h1]⟩
    · by_cases h2 : 1000 < raw.text.length
      · exact ⟨"ensure this value has at most 1000 characters",
          by simp [validateTTSRequest, fieldCheckText, h1, h2]⟩
      · exact ⟨"Text cannot be empty",
          by simp [validateTTSRequest, fieldCheckText, validate_text,
            h1, h2, hblank]⟩
  · intro hlong
    have h1 : ¬ (raw.text.length < 1) := by omega
    simp [validateTTSRequest, fieldCheckText, h1, hlong]
  · intro htrim hcap hlo hhi
    exact validateTTSRequest_ok raw htrim hcap hlo hhi
  · intro t s v hmem
    rcases handle_tts_events tts cfg st raw with hnil | ⟨req, hval, hsh⟩
    · rw [hnil] at hmem
      simp at hmem
    · have hreq := hpart1 req hval
      rcases hsh with h | h | ⟨m, h⟩
      · rw [h] at hmem
        simp only [List.mem_singleton] at hmem
        exact Event.noConfusion hmem
      · rw [h] at hmem
        simp only [List.mem_cons, List.not_mem_nil, or_false] at hmem
        rcases hmem with hc | hc
        · exact Event.noConfusion hc
        · injection hc with h1 h2 h3
          exact h1.trans hreq
      · rw [h] at hmem
        simp only [List.mem_cons, List.not_mem_nil, or_false] at hmem
        rcases hmem with hc | hc | hc
        · exact Event.noConfusion hc
        · injection hc with h1 h2 h3
          exact h1.trans hreq
        · exact Event.noConfusion hc

/-- C5 witness: surrounding whitespace is stripped before the
emptiness check and the validated text is the stripped text. -/
theorem trim_semantics_witness :
    validateTTSRequest
      { text := "  Hello world  ", speaker := some "EN-US",
        speed := some 1 } =
    Except.ok { text := "Hello world", speaker := "EN-US", speed := 1 } := by
  have h := trim_semantics ttsStub defaultSettings readyState
    { text := "  Hello world  ", speaker := some "EN-US", speed := some 1 }
  exact h.2.2.2.1 (by decide) (by decide) (by decide) (by decide)

/-- C8 counterexample: with the default speaker configured to `EN-AU`
and the default speed to 1.5, a request omitting both fields is still
validated - and synthesized - with the request-model literals `EN-US`
and speed 1: the configured defaults are never consulted. -/
theorem configured_default_speaker_ignored :
    cfgAU.DEFAULT_SPEAKER = "EN-AU"
    ∧ cfgAU.DEFAULT_SPEED = mkRat 3 2
    ∧ validateTTSRequest
        { text := "Hello world", speaker := none, speed := none } =
      Except.ok { text := "Hello world", speaker := "EN-US", speed := 1 }
    ∧ (handle_tts ttsStub cfgAU readyState
        { text := "Hello world", speaker := none, speed := none }).snd =
      [Event.dispatch, Event.modelCall "Hello world" "EN-US" 1]
    ∧ ("EN-US" : String) ≠ cfgAU.DEFAULT_SPEAKER
    ∧ (1 : Rat) ≠ cfgAU.DEFAULT_SPEED :=
  ⟨rfl, rfl, rfl, rfl, by decide, by decide⟩

/-- C8 (amended): a request omitting `speaker` or `speed` gets the
request-model defaults `EN-US` and 1.0 hardcoded in `models.py`; the
environment-configured default speaker and speed of `config.py` play no
part in validation or synthesis. -/
theorem omitted_fields_use_model_defaults (raw : RawTTSRequest)
    (req : TTSRequest)
    (hsp : raw.speaker = none) (hv : raw.speed = none)
    (hval : validateTTSRequest raw = Except.ok req) :
    req.speaker = "EN-US" ∧ req.speed = 1 := by
  unfold validateTTSRequest at hval
  cases ht : fieldCheckText raw.text with
  | error e => rw [ht] at hval; exact absurd hval (by simp)
  | ok t =>
    rw [ht] at hval
    cases hs : fieldCheckSpeed (raw.speed.getD 1) with
    | error e => rw [hs] at hval; exact absurd hval (by simp)
    | ok v2 =>
      rw [hs] at hval
      injection hval with h
      subst h
      rw [hv] at hs
      have hone : fieldCheckSpeed ((none : Option Rat).getD 1) =
          Except.ok 1 := rfl
      rw [hone] at hs
      injection hs with h2
      exact ⟨by rw [hsp]; rfl, h2.symm⟩

/-- C8 witness: the amended claim evaluated on a concrete request that
omits both optional fields. -/
theorem omitted_fields_use_model_defaults_witness :
    ({ text := "Hello world", speaker := "EN-US", speed := 1 }
        : TTSRequest).speaker = "EN-US"
    ∧ ({ text := "Hello world", speaker := "EN-US", speed := 1 }
        : TTSRequest).speed = 1 :=
  omitted_fields_use_model_defaults
    { text := "Hello world", speaker := none, speed := none }
    { text := "Hello world", speaker := "EN-US", speed := 1 } rfl rfl rfl

end MeloTTS
